import Mathlib

/-!
Verification of the multer-gridfs-storage engine (`src/lib/gridfs.js`).

The development shallowly embeds the parts of the code the claims are
about: the per-upload settings merge (`_mergeProps`, `generateBytes`,
the resolver-result normalisation in `fromStream`), the connection
state machine (`ready`, `_setDb`, `_fail`, `_updateConnectionStatus`,
`_handleFile`), the upload pipeline event handling in `fromStream`,
and the connection cache protocol used by `_resolveConnection`.
-/

namespace GridFS

/-- JavaScript values, restricted to the shapes that flow through the
settings objects of `gridfs.js`: `undefined`, `null`, strings, integer
numbers, booleans, `ObjectID` instances (identified by a nonce) and
opaque other objects. -/
inductive JsVal where
  | undef : JsVal
  | null : JsVal
  | str : String → JsVal
  | num : Int → JsVal
  | boolean : Bool → JsVal
  | oid : Nat → JsVal
  | obj : JsVal
deriving DecidableEq

/-- JavaScript truthiness for the values above: `undefined`, `null`,
`""`, `0` and `false` are falsy, everything else is truthy. -/
def truthy : JsVal → Bool
  | .undef => false
  | .null => false
  | .str s => s ≠ ""
  | .num n => n ≠ 0
  | .boolean b => b
  | .oid _ => true
  | .obj => true

/-- The keys of the per-upload settings objects used by `gridfs.js`
(`defaults`, the `{contentType}` extra object and the resolver output). -/
inductive SKey where
  | filename : SKey
  | id : SKey
  | metadata : SKey
  | chunkSize : SKey
  | bucketName : SKey
  | aliases : SKey
  | contentType : SKey
  | disableMD5 : SKey
deriving DecidableEq

/-- A JS settings object over the keys of `SKey`: each field is `none`
when the property is absent and `some v` when present with value `v`
(a present property may still hold `undefined`). -/
structure JsObj where
  filename : Option JsVal
  id : Option JsVal
  metadata : Option JsVal
  chunkSize : Option JsVal
  bucketName : Option JsVal
  aliases : Option JsVal
  contentType : Option JsVal
  disableMD5 : Option JsVal
deriving DecidableEq

/-- The empty object `{}`. -/
def JsObj.empty : JsObj := ⟨none, none, none, none, none, none, none, none⟩

/-- Property lookup by key. -/
def JsObj.get (o : JsObj) : SKey → Option JsVal
  | .filename => o.filename
  | .id => o.id
  | .metadata => o.metadata
  | .chunkSize => o.chunkSize
  | .bucketName => o.bucketName
  | .aliases => o.aliases
  | .contentType => o.contentType
  | .disableMD5 => o.disableMD5

/-- One key of a JS object spread: the right (later) operand wins
whenever the property is present on it, even with value `undefined`. -/
def ov (a b : Option JsVal) : Option JsVal :=
  match b with
  | some v => some v
  | none => a

/-- JS object spread `{...a, ...b}` restricted to the `SKey` keys. -/
def spread (a b : JsObj) : JsObj :=
  ⟨ov a.filename b.filename, ov a.id b.id, ov a.metadata b.metadata,
   ov a.chunkSize b.chunkSize, ov a.bucketName b.bucketName,
   ov a.aliases b.aliases, ov a.contentType b.contentType,
   ov a.disableMD5 b.disableMD5⟩

/-- The `defaults` constant of `gridfs.js`:
`{metadata: null, chunkSize: 261120, bucketName: 'fs', aliases: null}`. -/
def defaults : JsObj :=
  { JsObj.empty with
    metadata := some .null
    chunkSize := some (.num 261120)
    bucketName := some (.str "fs")
    aliases := some .null }

/-- Truthiness of a property lookup: a missing property reads as
`undefined`, hence falsy. -/
def truthyProp (o : Option JsVal) : Bool :=
  match o with
  | some v => truthy v
  | none => false

/-- Lowercase hexadecimal digit for `n < 16`, as produced by Node's
`Buffer.toString('hex')`. -/
def hexDigitChar (n : Nat) : Char :=
  if n < 10 then Char.ofNat (48 + n) else Char.ofNat (87 + n)

/-- Hex encoding of a byte list, two lowercase digits per byte. -/
def bytesToHexList : List Nat → List Char
  | [] => []
  | b :: rest => hexDigitChar (b / 16) :: hexDigitChar (b % 16) :: bytesToHexList rest

/-- `buffer.toString('hex')` on the byte list `bs`. -/
def bytesToHex (bs : List Nat) : String := ⟨bytesToHexList bs⟩

/-- `GridFSStorage.generateBytes`, with the 16 random bytes passed in
explicitly: resolves `{filename: buffer.toString('hex')}`. -/
def generateBytes (bs : List Nat) : JsObj :=
  { JsObj.empty with filename := some (.str (bytesToHex bs)) }

/-- The `previous` object built by `GridFSStorage._mergeProps` before
the final spread: `generateBytes()` when `fileSettings.filename` is
falsy, `{}` otherwise; then `previous.id = new ObjectID()` when
`fileSettings.id` is falsy. The fresh `ObjectID` is `JsVal.oid freshId`. -/
def mergePrevious (bs : List Nat) (freshId : Nat) (fileSettings : JsObj) : JsObj :=
  let p0 := if truthyProp fileSettings.filename then JsObj.empty else generateBytes bs
  if truthyProp fileSettings.id then p0 else { p0 with id := some (.oid freshId) }

/-- `GridFSStorage._mergeProps(extra, fileSettings)`:
`{...previous, ...defaults, ...extra, ...fileSettings}`. -/
def mergeProps (bs : List Nat) (freshId : Nat) (extra fileSettings : JsObj) : JsObj :=
  spread (spread (spread (mergePrevious bs freshId fileSettings) defaults) extra) fileSettings

/-- The `extra` object `{contentType}` built in `fromStream`: the
`contentType` property is always present on it, holding
`file.mimetype` or `undefined`. -/
def ctObj (ct : JsVal) : JsObj :=
  { JsObj.empty with contentType := some ct }

/-- Possible results of the user naming resolver, classified the way
JavaScript `typeof` sees them. -/
inductive ResolverResult where
  | undef : ResolverResult
  | null : ResolverResult
  | str : String → ResolverResult
  | num : Int → ResolverResult
  | boolean : Bool → ResolverResult
  | obj : JsObj → ResolverResult
  | func : ResolverResult
  | symbol : ResolverResult
  | bigint : ResolverResult
deriving DecidableEq

/-- JavaScript `typeof` on a resolver result (`typeof null` is
`"object"`). -/
def typeofResult : ResolverResult → String
  | .undef => "undefined"
  | .null => "object"
  | .str _ => "string"
  | .num _ => "number"
  | .boolean _ => "boolean"
  | .obj _ => "object"
  | .func => "function"
  | .symbol => "symbol"
  | .bigint => "bigint"

/-- The `allowedTypes` set of `fromStream`:
`['undefined', 'number', 'string', 'object']`. -/
def allowedTypes : List String := ["undefined", "number", "string", "object"]

/-- The resolver-result validation and normalisation of `fromStream`
(lines 368–384): reject a `typeof` outside `allowedTypes` with
`'Invalid type for file settings, got ' + setType`; map `null` and
`undefined` to `{}`; map strings and numbers to
`{filename: value.toString()}`; pass objects through. -/
def normalizeFileSettings (r : ResolverResult) : Except String JsObj :=
  if ¬ allowedTypes.contains (typeofResult r) then
    .error ("Invalid type for file settings, got " ++ typeofResult r)
  else
    match r with
    | .null => .ok JsObj.empty
    | .undef => .ok JsObj.empty
    | .str s => .ok { JsObj.empty with filename := some (.str s) }
    | .num n => .ok { JsObj.empty with filename := some (.str (toString n)) }
    | .obj o => .ok o
    | _ => .error ("Invalid type for file settings, got " ++ typeofResult r)

/-- The full settings resolution of `fromStream` for a resolver result
`r`: validate and normalise, then `_mergeProps({contentType}, settings)`. -/
def streamOptions (bs : List Nat) (freshId : Nat) (ct : JsVal) (r : ResolverResult) :
    Except String JsObj :=
  (normalizeFileSettings r).map (fun s => mergeProps bs freshId (ctObj ct) s)

/-- Error objects (`new Error(msg)`); `new Error()` is `⟨""⟩`. -/
structure Err where
  msg : String
deriving DecidableEq

deriving instance DecidableEq for Except

/-- A Mongo client handle; `isConnectedMethod` models the optional
`isConnected` method (`some b` when the method exists and returns `b`,
`none` when the client has no such method). -/
structure ClientH where
  isConnectedMethod : Option Bool
deriving DecidableEq

/-- A Mongo `Db` handle; `topologyConnected` models
`db.topology.isConnected()`. -/
structure DbH where
  topologyConnected : Bool
deriving DecidableEq

/-- The connection-related fields of a `GridFSStorage` instance
(constructor lines 66–74). -/
structure StorageState where
  db : Option DbH
  client : Option ClientH
  connected : Bool
  connecting : Bool
  error : Option Err
deriving DecidableEq

/-- The instance state right after the field initialisation in the
constructor. -/
def initState : StorageState := ⟨none, none, false, false, none⟩

/-- `GridFSStorage._updateConnectionStatus` (lines 189–204): no `db`
clears both flags; with a client, `connected` is the client's
`isConnected()` when the method exists and `true` otherwise; with only
a `db`, it is the topology status. -/
def updateConnectionStatus (st : StorageState) : StorageState :=
  match st.db with
  | none => { st with connected := false, connecting := false }
  | some d =>
    match st.client with
    | some c => { st with connected := c.isConnectedMethod.getD true }
    | none => { st with connected := d.topologyConnected }

/-- The pending promise created by `ready()` when the instance is
neither failed nor connected: a `once` listener on each of
`connection` and `connectionFailed`, unsettled. -/
structure PendingReady where
  settled : Option (Except Err (Option DbH × Option ClientH))
  connListener : Bool
  failListener : Bool
deriving DecidableEq

/-- The fresh pending promise: both listeners attached, unsettled. -/
def freshPending : PendingReady := ⟨none, true, true⟩

/-- The observable outcome of one `ready()` call. -/
inductive ReadyCall where
  | reject : Err → ReadyCall
  | resolve : Option DbH → Option ClientH → ReadyCall
  | suspended : PendingReady → ReadyCall
deriving DecidableEq

/-- `GridFSStorage.ready` (lines 482–505): throw the stored error if
any, return `{db, client}` if connected, otherwise suspend on the two
connection signals. `ready` reads but never writes the instance state,
so repeated calls see the same answer on an unchanged state. -/
def ready (st : StorageState) : ReadyCall :=
  match st.error with
  | some e => .reject e
  | none =>
    if st.connected then .resolve st.db st.client
    else .suspended freshPending

/-- The `connection` signal reaching a pending `ready()` promise: the
`done` handler resolves it and removes the `connectionFailed` listener
(its own `once` listener is also consumed). -/
def fireConnection (pay : Option DbH × Option ClientH) (p : PendingReady) : PendingReady :=
  if p.connListener then ⟨some (.ok pay), false, false⟩ else p

/-- The `connectionFailed` signal reaching a pending `ready()` promise:
the `fail` handler rejects it and removes the `connection` listener. -/
def fireConnectionFailed (e : Err) (p : PendingReady) : PendingReady :=
  if p.failListener then ⟨some (.error e), false, false⟩ else p

/-- The metadata object `f` the backend reports for a stored file
(from `store.close` or the write stream's `finish`). `theId` models
`f._id`. -/
structure FileInfo where
  theId : JsVal
  filename : JsVal
  metadata : JsVal
  chunkSize : JsVal
  length : JsVal
  md5 : JsVal
  uploadDate : JsVal
  contentType : JsVal
deriving DecidableEq

/-- The `storedFile` object built by `emitFile` (lines 398–412). -/
structure StoredFile where
  id : JsVal
  filename : JsVal
  metadata : JsVal
  bucketName : Option JsVal
  chunkSize : JsVal
  size : JsVal
  md5 : JsVal
  uploadDate : JsVal
  contentType : JsVal
deriving DecidableEq

/-- `emitFile`'s construction of the stored file: `metadata` is
`f.metadata || null`, `bucketName` comes from the resolved stream
options, the rest from the backend report. -/
def mkStoredFile (settings : JsObj) (f : FileInfo) : StoredFile :=
  ⟨f.theId, f.filename, if truthy f.metadata then f.metadata else .null,
   settings.bucketName, f.chunkSize, f.length, f.md5, f.uploadDate, f.contentType⟩

/-- Events emitted by the writer stream during an upload. -/
inductive WEvent where
  | error : Err → WEvent
  | finish : FileInfo → WEvent
deriving DecidableEq

/-- The observable outcome of the `fromStream` pipeline promise:
`result` is the promise settlement (first settlement wins, later
`resolve`/`reject` calls are no-ops), `streamErrors` the emitted
`streamError` signals with their payloads, `files` the emitted `file`
signals. -/
structure PipeOutcome where
  result : Option (Except Err StoredFile)
  streamErrors : List (Err × JsObj)
  files : List StoredFile
deriving DecidableEq

/-- No event processed yet. -/
def initOutcome : PipeOutcome := ⟨none, [], []⟩

/-- Promise settlement: only the first `resolve`/`reject` takes effect. -/
def settleOutcome (o : PipeOutcome) (r : Except Err StoredFile) : PipeOutcome :=
  match o.result with
  | some _ => o
  | none => { o with result := some r }

/-- The `emitError` closure (lines 393–396): emit
`streamError(error, streamOptions)`, then reject the pipeline promise. -/
def emitErrorStep (settings : JsObj) (e : Err) (o : PipeOutcome) : PipeOutcome :=
  settleOutcome { o with streamErrors := o.streamErrors ++ [(e, settings)] } (.error e)

/-- The `emitFile` closure (lines 398–412): build the stored file, emit
the `file` signal, resolve the pipeline promise. -/
def emitFileStep (settings : JsObj) (f : FileInfo) (o : PipeOutcome) : PipeOutcome :=
  settleOutcome { o with files := o.files ++ [mkStoredFile settings f] } (.ok (mkStoredFile settings f))

/-- Modern-path event handling of `fromStream` (lines 418, 441):
`writeStream.on('error', emitError)` and
`writeStream.on('finish', emitFile)` applied to the writer's event
sequence. -/
def processEvents (settings : JsObj) : List WEvent → PipeOutcome → PipeOutcome
  | [], o => o
  | .error e :: rest, o => processEvents settings rest (emitErrorStep settings e o)
  | .finish f :: rest, o => processEvents settings rest (emitFileStep settings f o)

/-- The modern-path pipeline outcome for a writer event sequence. -/
def runModern (settings : JsObj) (events : List WEvent) : PipeOutcome :=
  processEvents settings events initOutcome

/-- Legacy-path outcome of `fromStream` (lines 420–439): a failed
`store.open` reaches `emitError`; after a successful open, the
source-stream `end` triggers `store.close`, whose error also reaches
`emitError` and whose success reaches `emitFile`. -/
def runLegacy (settings : JsObj) (openRes : Except Err Unit) (ended : Bool)
    (closeRes : Except Err FileInfo) : PipeOutcome :=
  match openRes with
  | .error e => emitErrorStep settings e initOutcome
  | .ok _ =>
    if ended then
      match closeRes with
      | .error e => emitErrorStep settings e initOutcome
      | .ok f => emitFileStep settings f initOutcome
    else initOutcome

/-- Primitive ordered actions of the upload pipeline, for the
lifecycle-ordering claims. -/
inductive PAct where
  | openCall : PAct
  | pipeStart : PAct
  | closeCall : PAct
  | emitErr : Err → PAct
  | emitFileAct : FileInfo → PAct
deriving DecidableEq

/-- The ordered action trace of the legacy path (lines 420–439):
`store.open` first; only in its success callback is the `end` handler
attached and `pump` started; on `end`, `store.close` is issued and its
callback reports the stored metadata or the error. -/
def legacyTrace (openRes : Except Err Unit) (ended : Bool)
    (closeRes : Except Err FileInfo) : List PAct :=
  .openCall ::
    match openRes with
    | .error e => [.emitErr e]
    | .ok _ =>
      .pipeStart ::
        if ended then
          .closeCall ::
            match closeRes with
            | .error e => [.emitErr e]
            | .ok f => [.emitFileAct f]
        else []

/-- The ordered action trace of the modern path (lines 441–442): `pump`
starts immediately after the handlers are attached; the writer's own
`finish` (or `error`) ends the upload. -/
def modernTrace (outc : Option (Except Err FileInfo)) : List PAct :=
  .pipeStart ::
    match outc with
    | none => []
    | some (.error e) => [.emitErr e]
    | some (.ok f) => [.emitFileAct f]

/-- Lifecycle signals of the storage instance. -/
inductive Signal where
  | connection : Option DbH → Option ClientH → Signal
  | connectionFailed : Err → Signal
  | dbError : Err → Signal
deriving DecidableEq

/-- Deferred tasks queued behind the synchronous phase: the
`then`/`catch` continuation of `_resolveConnection` and the
`process.nextTick` callback scheduled by `_setDb`. -/
inductive CTask where
  | settleConn : Except Err (DbH × Option ClientH) → CTask
  | tickEmitConnection : CTask
deriving DecidableEq

/-- `GridFSStorage._setDb` (lines 212–240): clear `connecting`, store
the handles, register the backend error listeners on `this.client`
(which throws a `TypeError` when no client is present, line 229),
re-derive the status, and schedule the `connection` emission with
`process.nextTick` — nothing is emitted synchronously. -/
def setDbStep (st : StorageState) (d : DbH) (client : Option ClientH) :
    Except Err (StorageState × List CTask) :=
  let newClient := match client with
    | some c => some c
    | none => st.client
  let st1 := { st with connecting := false, db := some d, client := newClient }
  match st1.client with
  | none => .error ⟨"TypeError: Cannot read property on of null"⟩
  | some _ => .ok (updateConnectionStatus st1, [.tickEmitConnection])

/-- `GridFSStorage._fail` (lines 247–255): clear the handles, store the
error, re-derive the status, and emit `connectionFailed`; both call
sites are promise handlers, so the whole step runs in a turn after the
synchronous phase that triggered it. -/
def failStep (st : StorageState) (e : Err) : StorageState × List Signal :=
  (updateConnectionStatus
     { st with connecting := false, db := none, client := none, error := some e },
   [.connectionFailed e])

/-- The scheduling machine: instance state, queued deferred tasks,
whether the user listener has been attached, and the signals it has
observed. -/
structure Mach where
  st : StorageState
  queue : List CTask
  listenerAttached : Bool
  observed : List Signal
deriving DecidableEq

/-- Emit one signal: only an attached listener observes it. -/
def emitSignal (m : Mach) (s : Signal) : Mach :=
  if m.listenerAttached then { m with observed := m.observed ++ [s] } else m

/-- Run one deferred task. The `then` handler runs `_setDb`; an
exception inside it is caught by the chained `.catch`, which runs
`_fail` (lines 111–116). The `nextTick` task emits `connection` with
the current handles. -/
def runTask (m : Mach) (t : CTask) : Mach :=
  match t with
  | .tickEmitConnection => emitSignal m (.connection m.st.db m.st.client)
  | .settleConn (.ok (d, c)) =>
    match setDbStep m.st d c with
    | .ok (st', ts) => { m with st := st', queue := m.queue ++ ts }
    | .error e =>
      let (st', sigs) := failStep m.st e
      sigs.foldl emitSignal { m with st := st' }
  | .settleConn (.error e) =>
    let (st', sigs) := failStep m.st e
    sigs.foldl emitSignal { m with st := st' }

/-- Pop and run the next deferred task, if any. -/
def stepM (m : Mach) : Mach :=
  match m.queue with
  | [] => m
  | t :: rest => runTask { m with queue := rest } t

/-- Run `n` scheduling turns. -/
def runM : Nat → Mach → Mach
  | 0, m => m
  | n + 1, m => runM n (stepM m)

/-- End of the synchronous construction phase on the direct-db path of
`_connect` (lines 106–109): `_setDb` runs inline; it emits nothing and
only queues the `nextTick` emission (or throws out of the
constructor). -/
def constructDirect (d : DbH) (client : Option ClientH) : Except Err Mach :=
  match setDbStep initState d client with
  | .error e => .error e
  | .ok (st, ts) => .ok ⟨st, ts, false, []⟩

/-- End of the synchronous construction phase on the promise/url path
of `_connect` (lines 111–116): `connecting` is set and the
`then`/`catch` continuation is queued for a later turn with the
eventual connect outcome; nothing is emitted synchronously. -/
def constructAsync (outc : Except Err (DbH × Option ClientH)) : Mach :=
  ⟨{ initState with connecting := true }, [.settleConn outc], false, []⟩

/-- Attaching the user listener, synchronously after construction. -/
def attachListener (m : Mach) : Mach := { m with listenerAttached := true }

/-- The possible dispatches of `_handleFile`. -/
inductive HandleAction where
  | awaitReady : HandleAction
  | startUpload : HandleAction
  | callbackError : String → HandleAction
deriving DecidableEq

/-- `GridFSStorage._handleFile` (lines 301–322): while `connecting`,
wait on `ready()` and then upload; otherwise re-derive the status and
either start the upload or invoke the callback with the
connection-must-be-open error, creating no writer. -/
def handleFileDispatch (st : StorageState) : HandleAction × StorageState :=
  if st.connecting then (.awaitReady, st)
  else
    let st' := updateConnectionStatus st
    if st'.connected then (.startUpload, st')
    else (.callbackError "The database connection must be open to store files", st')

/-- The `errEvent` handler registered by `_setDb` (lines 220–226):
re-derive the connection status first, substitute `new Error()` when
the backend event carried no error object, then emit `dbError`. -/
def errEvent (st : StorageState) (arg : Option Err) : StorageState × Signal :=
  let st' := updateConnectionStatus st
  (st', .dbError (match arg with | some e => e | none => ⟨""⟩))

/-- Modelled from the spec: the repository's connection cache
(`lib/cache.js`) is not under `src/`; §4.1 of the spec defines its
entries. One entry per signature: `pending` until settled, `opening`
once some caller owns the real connect, and the settled outcome. -/
structure CacheEntry where
  pending : Bool
  opening : Bool
  outcome : Option (Except Err (DbH × Option ClientH))
deriving DecidableEq

/-- A freshly registered entry: pending, not opening, unsettled. -/
def freshEntry : CacheEntry := ⟨true, false, none⟩

/-- Modelled from the spec: `initialize(signature)` registers a slot or
reuses the existing one; the cache maps signatures to entries. -/
def cacheInit (m : String → Option CacheEntry) (sig : String) :
    String → Option CacheEntry :=
  fun s => if s = sig then some ((m sig).getD freshEntry) else m s

/-- The acquisition step of `_resolveConnection` (lines 137–143): a
caller finding the entry pending and not opening marks it opening and
performs the real connect (`true`); every other caller waits
(`false`). -/
def acquire (e : CacheEntry) : Bool × CacheEntry :=
  if ¬ e.opening ∧ e.pending then (true, { e with opening := true }) else (false, e)

/-- `n` instances with the same signature performing the acquisition
step in sequence; counts how many become the real connector. -/
def acquireCount : Nat → CacheEntry → Nat × CacheEntry
  | 0, e => (0, e)
  | n + 1, e =>
    let (b, e1) := acquire e
    let (c, e2) := acquireCount n e1
    ((if b then 1 else 0) + c, e2)

/-- Modelled from the spec: `cache.resolve` settles the entry with the
connection, at most once. -/
def cacheResolve (e : CacheEntry) (d : DbH) (c : Option ClientH) : CacheEntry :=
  if e.outcome = none then { e with pending := false, outcome := some (.ok (d, c)) } else e

/-- Modelled from the spec: `cache.reject` settles the entry with the
error, at most once; a rejected entry stays rejected. -/
def cacheReject (e : CacheEntry) (err : Err) : CacheEntry :=
  if e.outcome = none then { e with pending := false, outcome := some (.error err) } else e

/-- Modelled from the spec: `waitFor` delivers the settled outcome to
every current and future waiter of the signature. -/
def cacheWaitFor (e : CacheEntry) : Option (Except Err (DbH × Option ClientH)) := e.outcome

/-! Helper lemmas. -/

theorem spread_get (a b : JsObj) (k : SKey) :
    (spread a b).get k = ov (a.get k) (b.get k) := by
  cases k <;> rfl

theorem mergeProps_get (bs : List Nat) (fid : Nat) (extra fs : JsObj) (k : SKey) :
    (mergeProps bs fid extra fs).get k =
      ov (ov (ov ((mergePrevious bs fid fs).get k) (defaults.get k)) (extra.get k))
        (fs.get k) := by
  simp [mergeProps, spread_get]

theorem ov_some (a : Option JsVal) (v : JsVal) : ov a (some v) = some v := rfl

theorem ov_none (a : Option JsVal) : ov a none = a := rfl

theorem bytesToHexList_length (bs : List Nat) :
    (bytesToHexList bs).length = 2 * bs.length := by
  induction bs with
  | nil => rfl
  | cons b rest ih => simp [bytesToHexList, ih]; omega

/-- The sixteen lowercase hexadecimal digits. -/
theorem hexDigitChar_mem (n : Nat) (h : n < 16) :
    hexDigitChar n ∈ "0123456789abcdef".data := by
  have : ∀ m, m < 16 → hexDigitChar m ∈ "0123456789abcdef".data := by decide
  exact this n h

theorem bytesToHexList_mem (bs : List Nat) (hb : ∀ b ∈ bs, b < 256) :
    ∀ c ∈ bytesToHexList bs, c ∈ "0123456789abcdef".data := by
  induction bs with
  | nil => intro c hc; simp [bytesToHexList] at hc
  | cons b rest ih =>
    intro c hc
    have hb0 : b < 256 := hb b (by simp)
    simp only [bytesToHexList, List.mem_cons] at hc
    rcases hc with h | h | h
    · exact h ▸ hexDigitChar_mem _ (by omega)
    · exact h ▸ hexDigitChar_mem _ (by omega)
    · exact ih (fun x hx => hb x (by simp [hx])) c h

theorem merge_filename_of_none (bs : List Nat) (fid : Nat) (extra fs : JsObj)
    (hf : fs.filename = none) (he : extra.filename = none) :
    (mergeProps bs fid extra fs).get .filename = some (.str (bytesToHex bs)) := by
  have hfk : fs.get .filename = none := hf
  have hek : extra.get .filename = none := he
  rw [mergeProps_get, hfk, hek, ov_none, ov_none]
  rw [show defaults.get .filename = none from rfl, ov_none]
  unfold mergePrevious
  simp only [truthyProp, hf]
  split <;> simp [generateBytes, JsObj.get, JsObj.empty]

theorem merge_id_of_none (bs : List Nat) (fid : Nat) (extra fs : JsObj)
    (hi : fs.id = none) (he : extra.id = none) :
    (mergeProps bs fid extra fs).get .id = some (.oid fid) := by
  have hik : fs.get .id = none := hi
  have hek : extra.get .id = none := he
  rw [mergeProps_get, hik, hek, ov_none, ov_none]
  rw [show defaults.get .id = none from rfl, ov_none]
  unfold mergePrevious
  simp only [truthyProp, hi]
  split <;> simp_all [JsObj.get]

/-! Claim theorems. -/

/-- C1: the final stream settings are `{...previous, ...defaults,
...{contentType}, ...fileSettings}`: the resolver output wins every
conflict (contentType included); the inferred contentType fills in when
the resolver omits it; the static defaults fill metadata, chunkSize,
bucketName and aliases beneath it; the auto-generated filename and id
appear exactly when the resolver output misses them; and a resolver
returning the string "abc" yields settings with filename "abc",
chunkSize 261120 and bucketName "fs". -/
theorem c1_merge_precedence (bs : List Nat) (fid : Nat) (ct : JsVal) (fs : JsObj) :
    (∀ k v, fs.get k = some v → (mergeProps bs fid (ctObj ct) fs).get k = some v)
    ∧ (fs.get .contentType = none →
        (mergeProps bs fid (ctObj ct) fs).get .contentType = some ct)
    ∧ (fs.get .metadata = none →
        (mergeProps bs fid (ctObj ct) fs).get .metadata = some .null)
    ∧ (fs.get .chunkSize = none →
        (mergeProps bs fid (ctObj ct) fs).get .chunkSize = some (.num 261120))
    ∧ (fs.get .bucketName = none →
        (mergeProps bs fid (ctObj ct) fs).get .bucketName = some (.str "fs"))
    ∧ (fs.get .aliases = none →
        (mergeProps bs fid (ctObj ct) fs).get .aliases = some .null)
    ∧ (fs.get .filename = none →
        (mergeProps bs fid (ctObj ct) fs).get .filename = some (.str (bytesToHex bs)))
    ∧ (fs.get .id = none → (mergeProps bs fid (ctObj ct) fs).get .id = some (.oid fid))
    ∧ normalizeFileSettings (.str "abc")
        = .ok { JsObj.empty with filename := some (.str "abc") }
    ∧ (streamOptions bs fid ct (.str "abc")).map (fun o => o.get .filename)
        = .ok (some (.str "abc"))
    ∧ (streamOptions bs fid ct (.str "abc")).map (fun o => o.get .chunkSize)
        = .ok (some (.num 261120))
    ∧ (streamOptions bs fid ct (.str "abc")).map (fun o => o.get .bucketName)
        = .ok (some (.str "fs")) := by
  refine ⟨?_, ?_, ?_, ?_, ?_, ?_, ?_, ?_, rfl, rfl, rfl, rfl⟩
  · intro k v h
    rw [mergeProps_get, h, ov_some]
  · intro h
    rw [mergeProps_get, h]; rfl
  · intro h
    rw [mergeProps_get, h]; rfl
  · intro h
    rw [mergeProps_get, h]; rfl
  · intro h
    rw [mergeProps_get, h]; rfl
  · intro h
    rw [mergeProps_get, h]; rfl
  · intro h
    exact merge_filename_of_none bs fid (ctObj ct) fs h rfl
  · intro h
    exact merge_id_of_none bs fid (ctObj ct) fs h rfl

/-- C1 witness: with the resolver output `{}`, 16 zero bytes and fresh
id 5, the merged settings carry the generated filename and the default
bucket name. -/
theorem c1_merge_precedence_witness :
    (mergeProps (List.replicate 16 0) 5 (ctObj .undef) JsObj.empty).get .filename
      = some (.str (bytesToHex (List.replicate 16 0)))
    ∧ (mergeProps (List.replicate 16 0) 5 (ctObj .undef) JsObj.empty).get .bucketName
      = some (.str "fs") :=
  ⟨(c1_merge_precedence (List.replicate 16 0) 5 .undef JsObj.empty).2.2.2.2.2.2.1 rfl,
   (c1_merge_precedence (List.replicate 16 0) 5 .undef JsObj.empty).2.2.2.2.1 rfl⟩

/-- C6: the naming resolver's result is accepted only when it is absent
(`undefined`/`null`), a number, a string, or a plain mapping; a boolean,
function, symbol or bigint result fails the upload with the explicit
type error; numeric and string results become
`{filename: String(value)}`. -/
theorem c6_resolver_result_validation :
    normalizeFileSettings .undef = .ok JsObj.empty
    ∧ normalizeFileSettings .null = .ok JsObj.empty
    ∧ (∀ s, normalizeFileSettings (.str s)
        = .ok { JsObj.empty with filename := some (.str s) })
    ∧ (∀ n, normalizeFileSettings (.num n)
        = .ok { JsObj.empty with filename := some (.str (toString n)) })
    ∧ (∀ o, normalizeFileSettings (.obj o) = .ok o)
    ∧ (∀ b, normalizeFileSettings (.boolean b)
        = .error "Invalid type for file settings, got boolean")
    ∧ normalizeFileSettings .func = .error "Invalid type for file settings, got function"
    ∧ normalizeFileSettings .symbol = .error "Invalid type for file settings, got symbol"
    ∧ normalizeFileSettings .bigint = .error "Invalid type for file settings, got bigint"
    ∧ (∀ r, (∃ o, normalizeFileSettings r = .ok o)
        ↔ allowedTypes.contains (typeofResult r) = true) := by
  refine ⟨rfl, rfl, fun s => rfl, fun n => rfl, fun o => rfl, fun b => rfl, rfl, rfl, rfl,
    fun r => ?_⟩
  cases r <;> simp [normalizeFileSettings, allowedTypes, typeofResult]

/-- C8: the generated filename is the hex encoding of the 16 random
bytes — 32 lowercase hexadecimal characters; the merged settings always
carry a filename and an id property; and a resolver returning `{id: X}`
yields the auto-generated filename together with `id = X`. -/
theorem c8_generated_filename_and_id (bs : List Nat) (fid : Nat) (ct : JsVal) (fs : JsObj)
    (x : JsVal) (hlen : bs.length = 16) (hb : ∀ b ∈ bs, b < 256) :
    ((bytesToHex bs).length = 32
      ∧ ∀ c ∈ (bytesToHex bs).data, c ∈ "0123456789abcdef".data)
    ∧ ((mergeProps bs fid (ctObj ct) fs).get .filename).isSome = true
    ∧ ((mergeProps bs fid (ctObj ct) fs).get .id).isSome = true
    ∧ (mergeProps bs fid (ctObj ct) { JsObj.empty with id := some x }).get .filename
        = some (.str (bytesToHex bs))
    ∧ (mergeProps bs fid (ctObj ct) { JsObj.empty with id := some x }).get .id
        = some x := by
  refine ⟨⟨?_, ?_⟩, ?_, ?_, ?_, rfl⟩
  · show (bytesToHexList bs).length = 32
    rw [bytesToHexList_length, hlen]
  · exact bytesToHexList_mem bs hb
  · cases hf : fs.filename with
    | some v =>
      have hfk : fs.get .filename = some v := hf
      rw [mergeProps_get, hfk, ov_some]; rfl
    | none =>
      rw [merge_filename_of_none bs fid (ctObj ct) fs hf rfl]; rfl
  · cases hi : fs.id with
    | some v =>
      have hik : fs.get .id = some v := hi
      rw [mergeProps_get, hik, ov_some]; rfl
    | none =>
      rw [merge_id_of_none bs fid (ctObj ct) fs hi rfl]; rfl
  · exact merge_filename_of_none bs fid (ctObj ct) _ rfl rfl

/-- C8 witness: 16 zero bytes produce a 32-character filename and a
resolver output `{id: ObjectID 1}` keeps that id. -/
theorem c8_generated_filename_and_id_witness :
    (bytesToHex (List.replicate 16 0)).length = 32
    ∧ (mergeProps (List.replicate 16 0) 0 (ctObj .undef)
        { JsObj.empty with id := some (.oid 1) }).get .id = some (.oid 1) :=
  ⟨((c8_generated_filename_and_id (List.replicate 16 0) 0 .undef JsObj.empty (.oid 1)
      (by decide) (by decide)).1).1,
   (c8_generated_filename_and_id (List.replicate 16 0) 0 .undef JsObj.empty (.oid 1)
      (by decide) (by decide)).2.2.2.2⟩

/-- C2: `ready()` after a stored connection failure rejects with the
stored error, on every call (the call never changes the state); when
already connected it resolves immediately with `{db, client}`; before
settlement it suspends on both connection signals, settles with the
first to fire, and detaches the other listener, so the later opposite
signal is a no-op. -/
theorem c2_ready_behaviour (st : StorageState) :
    (∀ e, st.error = some e → ready st = .reject e)
    ∧ (st.error = none → st.connected = true → ready st = .resolve st.db st.client)
    ∧ (st.error = none → st.connected = false →
        ready st = .suspended freshPending
        ∧ (∀ pay, fireConnection pay freshPending = ⟨some (.ok pay), false, false⟩)
        ∧ (∀ e, fireConnectionFailed e freshPending = ⟨some (.error e), false, false⟩)
        ∧ (∀ pay e,
            fireConnectionFailed e (fireConnection pay freshPending)
              = fireConnection pay freshPending
            ∧ fireConnection pay (fireConnectionFailed e freshPending)
              = fireConnectionFailed e freshPending)) := by
  refine ⟨?_, ?_, ?_⟩
  · intro e he; simp [ready, he]
  · intro he hc; simp [ready, he, hc]
  · intro he hc
    exact ⟨by simp [ready, he, hc], fun pay => rfl, fun e => rfl,
      fun pay e => ⟨rfl, rfl⟩⟩

/-- C2 witness: a failed instance rejects with the stored error, a
connected instance resolves with its handles, an unsettled instance
suspends. -/
theorem c2_ready_behaviour_witness :
    ready ⟨none, none, false, false, some ⟨"boom"⟩⟩ = .reject ⟨"boom"⟩
    ∧ ready ⟨some ⟨true⟩, some ⟨some true⟩, true, false, none⟩
        = .resolve (some ⟨true⟩) (some ⟨some true⟩)
    ∧ ready ⟨none, none, false, true, none⟩ = .suspended freshPending :=
  ⟨(c2_ready_behaviour ⟨none, none, false, false, some ⟨"boom"⟩⟩).1 ⟨"boom"⟩ rfl,
   (c2_ready_behaviour ⟨some ⟨true⟩, some ⟨some true⟩, true, false, none⟩).2.1 rfl rfl,
   ((c2_ready_behaviour ⟨none, none, false, true, none⟩).2.2 rfl rfl).1⟩

/-- C3: a writer error makes the pipeline promise reject with that
error and emits exactly one `streamError` carrying the same error and
the resolved settings; no `file` signal is emitted and no stored file
is produced on that path; likewise when the legacy `open` or `close`
fails. -/
theorem c3_stream_error_path (settings : JsObj) (e : Err) :
    runModern settings [.error e]
      = ⟨some (.error e), [(e, settings)], []⟩
    ∧ (∀ ended closeRes, runLegacy settings (.error e) ended closeRes
        = ⟨some (.error e), [(e, settings)], []⟩)
    ∧ runLegacy settings (.ok ()) true (.error e)
      = ⟨some (.error e), [(e, settings)], []⟩ :=
  ⟨rfl, fun _ _ => rfl, rfl⟩

/-- C7: on the legacy path the writer's `open` always comes first and
piping begins only inside its success callback — an open failure
reaches `emitError` and nothing is piped; `close` is issued only after
the source stream ends and its callback carries the stored metadata.
On the modern path piping starts immediately and the writer's own
`finish` notification carries the stored metadata. -/
theorem c7_writer_lifecycle :
    (∀ openRes ended closeRes,
      (legacyTrace openRes ended closeRes).head? = some .openCall)
    ∧ (∀ e ended closeRes,
        legacyTrace (.error e) ended closeRes = [.openCall, .emitErr e])
    ∧ (∀ ended closeRes,
        (legacyTrace (.ok ()) ended closeRes).take 2 = [.openCall, .pipeStart])
    ∧ (∀ closeRes, legacyTrace (.ok ()) false closeRes = [.openCall, .pipeStart])
    ∧ (∀ f, legacyTrace (.ok ()) true (.ok f)
        = [.openCall, .pipeStart, .closeCall, .emitFileAct f])
    ∧ (∀ e, legacyTrace (.ok ()) true (.error e)
        = [.openCall, .pipeStart, .closeCall, .emitErr e])
    ∧ (∀ outc, (modernTrace outc).head? = some .pipeStart)
    ∧ (∀ f, modernTrace (some (.ok f)) = [.pipeStart, .emitFileAct f]) := by
  refine ⟨fun o ended c => rfl, fun e ended c => rfl, fun ended c => ?_, fun c => rfl,
    fun f => rfl, fun e => rfl, fun o => rfl, fun f => rfl⟩
  cases ended <;> rfl

/-- C9: `_handleFile` on an instance that is neither connecting nor
connected calls back with the connection-must-be-open error and neither
awaits `ready()` nor starts an upload; in particular this holds after a
connection failure, where `db` has been cleared. -/
theorem c9_handle_file_disconnected (st : StorageState)
    (hc : st.connecting = false)
    (hnc : (updateConnectionStatus st).connected = false) :
    (handleFileDispatch st).1
      = .callbackError "The database connection must be open to store files"
    ∧ (handleFileDispatch st).1 ≠ .startUpload
    ∧ (handleFileDispatch st).1 ≠ .awaitReady := by
  have hd : handleFileDispatch st
      = (.callbackError "The database connection must be open to store files",
         updateConnectionStatus st) := by
    simp [handleFileDispatch, hc, hnc]
  exact ⟨by rw [hd], by rw [hd]; simp, by rw [hd]; simp⟩

/-- C9 witness: a failed instance (`db` cleared, not connecting) is
dispatched to the error callback. -/
theorem c9_handle_file_disconnected_witness :
    (handleFileDispatch ⟨none, none, false, false, some ⟨"down"⟩⟩).1
      = .callbackError "The database connection must be open to store files" :=
  (c9_handle_file_disconnected ⟨none, none, false, false, some ⟨"down"⟩⟩ rfl rfl).1

/-- C10: `errEvent` always emits `dbError` with an `Error` object,
substituting `new Error()` when the backend event carried none, and the
post-state is exactly `_updateConnectionStatus` of the previous state —
the `connected` flag is re-derived from the backend link status before
the signal is emitted. -/
theorem c10_db_error_payload (st : StorageState) (arg : Option Err) :
    (errEvent st arg).2 = .dbError (arg.getD ⟨""⟩)
    ∧ (errEvent st none).2 = .dbError ⟨""⟩
    ∧ (errEvent st arg).1 = updateConnectionStatus st
    ∧ (∀ d c, st.db = some d → st.client = some c →
        (errEvent st arg).1.connected = c.isConnectedMethod.getD true)
    ∧ (∀ d, st.db = some d → st.client = none →
        (errEvent st arg).1.connected = d.topologyConnected)
    ∧ (st.db = none → (errEvent st arg).1.connected = false) := by
  refine ⟨?_, rfl, rfl, ?_, ?_, ?_⟩
  · cases arg <;> rfl
  · intro d c hd hcl; simp [errEvent, updateConnectionStatus, hd, hcl]
  · intro d hd hcl; simp [errEvent, updateConnectionStatus, hd, hcl]
  · intro hd; simp [errEvent, updateConnectionStatus, hd]

/-- C10 witness: a `close` event with no error argument on an instance
whose `db` handle dropped emits `dbError` with a fresh empty error and
re-derives `connected` to false. -/
theorem c10_db_error_payload_witness :
    (errEvent ⟨none, none, true, false, none⟩ none).2 = .dbError ⟨""⟩
    ∧ (errEvent ⟨none, none, true, false, none⟩ none).1.connected = false :=
  ⟨(c10_db_error_payload ⟨none, none, true, false, none⟩ none).2.1,
   (c10_db_error_payload ⟨none, none, true, false, none⟩ none).2.2.2.2.2 rfl⟩

/-- C5: no lifecycle signal is emitted during the synchronous
construction phase — `connection` is dispatched from a `process.nextTick`
task and `connectionFailed` from a promise-handler task — so a listener
attached synchronously after construction observes exactly the first of
{success, failure}. -/
theorem c5_deferred_signal_dispatch (d : DbH) (c : ClientH) (e : Err) :
    (constructDirect d (some c)).map (fun m => m.observed) = .ok []
    ∧ (constructDirect d (some c)).map
        (fun m => (runM 1 (attachListener m)).observed)
        = .ok [.connection (some d) (some c)]
    ∧ (constructAsync (.ok (d, some c))).observed = []
    ∧ (runM 2 (attachListener (constructAsync (.ok (d, some c))))).observed
        = [.connection (some d) (some c)]
    ∧ (constructAsync (.error e)).observed = []
    ∧ (runM 1 (attachListener (constructAsync (.error e)))).observed
        = [.connectionFailed e]
    ∧ (runM 1 (attachListener (constructAsync (.error e)))).st.error = some e :=
  ⟨rfl, rfl, rfl, rfl, rfl, rfl, rfl⟩

theorem acquireCount_of_opening (n : Nat) (e : CacheEntry) (h : e.opening = true) :
    acquireCount n e = (0, e) := by
  induction n with
  | zero => rfl
  | succ k ih =>
    have ha : acquire e = (false, e) := by simp [acquire, h]
    simp [acquireCount, ha, ih]

/-- C4: per signature at most one cache entry exists (`initialize` is
idempotent) and among `n` sequential acquisition attempts on a fresh
entry exactly one — the first — becomes the real connector, every other
caller waiting instead; all waiters read the same settled `{db, client}`
outcome, and a rejection settles the entry with that error for all
current and future waiters (a later resolve is a no-op and future
callers still wait and observe the error). -/
theorem c4_cache_dedup (n : Nat) (hn : 1 ≤ n) :
    (∀ m sig, cacheInit (cacheInit m sig) sig = cacheInit m sig)
    ∧ (acquireCount n freshEntry).1 = 1
    ∧ (acquire freshEntry).1 = true
    ∧ (∀ e, e.opening = true → acquire e = (false, e))
    ∧ (∀ d c, cacheWaitFor (cacheResolve (acquire freshEntry).2 d c) = some (.ok (d, c)))
    ∧ (∀ err, cacheWaitFor (cacheReject (acquire freshEntry).2 err) = some (.error err)
        ∧ acquire (cacheReject (acquire freshEntry).2 err)
            = (false, cacheReject (acquire freshEntry).2 err)
        ∧ (∀ d c, cacheResolve (cacheReject (acquire freshEntry).2 err) d c
            = cacheReject (acquire freshEntry).2 err)) := by
  refine ⟨?_, ?_, rfl, ?_, fun d c => rfl, fun err => ⟨rfl, rfl, fun d c => rfl⟩⟩
  · intro m sig
    funext s
    by_cases h : s = sig <;> simp [cacheInit, h]
  · obtain ⟨k, rfl⟩ : ∃ k, n = k + 1 := ⟨n - 1, by omega⟩
    have hopen : ({ freshEntry with opening := true } : CacheEntry).opening = true := rfl
    have ha : acquire freshEntry = (true, { freshEntry with opening := true }) := rfl
    simp [acquireCount, ha, acquireCount_of_opening k _ hopen]
  · intro e he; simp [acquire, he]

/-- C4 witness: three concurrent instances with the same signature
yield exactly one real connect. -/
theorem c4_cache_dedup_witness :
    (acquireCount 3 freshEntry).1 = 1 :=
  (c4_cache_dedup 3 (by decide)).2.1

end GridFS
